import Mathlib

/-!
Shallow embedding of the Grainlify contract upgrade system
(src/contracts/grainlify-core/src/lib.rs) for checking its specification.

Modelling conventions, fixed once for the whole file:

* Addresses, WASM hashes and proposal ids are `Nat`; Soroban `Symbol`
  storage keys and function names are `String`.
* The `u64` telemetry counters are modelled as `Nat`: they only ever move
  by `+ 1` per call, and Soroban contract builds abort on arithmetic
  overflow rather than wrapping, so `% 2^64` never matters for them.  The
  one place the source performs wide arithmetic with a narrowing cast,
  `get_analytics` (`(errors as u128 * 10000 / ops as u128) as u32`), keeps
  the truncating cast explicitly as `% 2^32`.
* Soroban persistent/instance storage is modelled field-by-field; maps
  keyed by a symbol-plus-name tuple become association lists where a write
  conses the new pair and a read takes the first match (last write wins,
  exactly the overwrite semantics of `storage().set`).
* `env.ledger().timestamp()` is constant within one invocation, so every
  entry point takes a single `ts : Nat`; the `saturating_sub` of two reads
  of the same clock is kept syntactically as `ts - ts` (`Nat` subtraction
  is saturating).
* A Rust `panic!` / failed `unwrap` / failed `require_auth` aborts the
  whole Soroban transaction and reverts every storage write and event of
  the call.  Fallible entry points therefore return `Except GErr CState`,
  and an `.error` outcome carries no state: in particular the
  `track_operation` that `init_admin` performs just before its
  re-initialization abort is rolled back and is deliberately absent from
  the model's error path.
* `require_auth(a)` succeeds exactly when the invoking caller controls
  `a`; each authorization-sensitive entry point takes the caller as an
  explicit `caller : Nat` argument and the check is `caller = a`.
-/

namespace Grainlify

/-- Abort conditions of the contract calls.  The source signals them as
Soroban transaction aborts; the constructor names follow the messages and
host failures: `alreadyInit` for the two `"Already initialized"` guards,
`unauthorized` for a failed `require_auth`, `notFound` for a failed
`unwrap` on a missing storage entry, `thresholdNotMet` for the
`"Threshold not met"` guard of `execute_upgrade`, `missingProposal` for
its `expect("Missing upgrade proposal")`, and `notASigner`,
`proposalNotFound`, `alreadyExecuted` for the multisig module's approve
preconditions. -/
inductive GErr where
  | alreadyInit
  | unauthorized
  | notFound
  | thresholdNotMet
  | missingProposal
  | notASigner
  | proposalNotFound
  | alreadyExecuted
deriving DecidableEq, Repr

/-- Audit events published by the monitoring module: `OperationMetric`
records from `track_operation` and `PerformanceMetric` records from
`emit_performance`. -/
inductive GEvent where
  | opMetric (operation : String) (caller : Nat) (timestamp : Nat) (success : Bool)
  | perfMetric (function : String) (duration : Nat) (timestamp : Nat)
deriving DecidableEq, Repr

/-- Multisig configuration stored by `MultiSig::init`: the signer set and
the approval threshold. -/
structure MsConfig where
  signers : List Nat
  threshold : Nat
deriving DecidableEq, Repr

/-- A multisig upgrade proposal: proposer, the approvals set (unique
membership), and the executed flag. -/
structure Proposal where
  proposer : Nat
  approvals : List Nat
  executed : Bool
deriving DecidableEq, Repr

/-- The contract's durable state: instance storage (`Admin`, `Version`,
the multisig configuration, the per-proposal WASM hashes), the multisig
proposal store, the persistent telemetry counters, the per-function
performance counters keyed by function name, the currently installed WASM
hash, and the published event log. -/
structure CState where
  admin : Option Nat
  version : Option Nat
  msConfig : Option MsConfig
  nextProposalId : Nat
  proposals : List (Nat × Proposal)
  upgradeProposals : List (Nat × Nat)
  opCount : Nat
  errCount : Nat
  usrCount : Nat
  perfCnt : List (String × Nat)
  perfTime : List (String × Nat)
  perfLast : List (String × Nat)
  currentWasm : Option Nat
  events : List GEvent
deriving DecidableEq, Repr

/-- The state of a freshly deployed, never-initialized contract: empty
storage throughout (`unwrap_or(0)` reads all yield 0). -/
def initState : CState :=
  { admin := none
    version := none
    msConfig := none
    nextProposalId := 0
    proposals := []
    upgradeProposals := []
    opCount := 0
    errCount := 0
    usrCount := 0
    perfCnt := []
    perfTime := []
    perfLast := []
    currentWasm := none
    events := [] }

/-- Read a counter from an association-list store, 0 when absent
(`get(..).unwrap_or(0)`). -/
def getCtr (l : List (String × Nat)) (k : String) : Nat :=
  match l with
  | [] => 0
  | (k', v) :: rest => if k' = k then v else getCtr rest k

/-- Write a counter to an association-list store (`storage().set`): the
new pair shadows any previous one. -/
def setCtr (l : List (String × Nat)) (k : String) (v : Nat) : List (String × Nat) :=
  (k, v) :: l

/-- Read a proposal from the proposal store. -/
def lookupProposal (l : List (Nat × Proposal)) (k : Nat) : Option Proposal :=
  match l with
  | [] => none
  | (k', v) :: rest => if k' = k then some v else lookupProposal rest k

/-- Write a proposal to the proposal store: the new pair shadows any
previous one. -/
def setProposal (l : List (Nat × Proposal)) (k : Nat) (v : Proposal) :
    List (Nat × Proposal) :=
  (k, v) :: l

/-- Read the stored WASM hash of an upgrade proposal
(`DataKey::UpgradeProposal(id)`). -/
def lookupHash (l : List (Nat × Nat)) (k : Nat) : Option Nat :=
  match l with
  | [] => none
  | (k', v) :: rest => if k' = k then some v else lookupHash rest k

/-- `const VERSION: u32 = 1`. -/
def VERSION : Nat := 1

-- ==================== MONITORING MODULE ====================

/-- `monitoring::track_operation`: increments the global operation
counter, increments the global error counter when `!success`, and
publishes an `OperationMetric` event. -/
def track_operation (s : CState) (operation : String) (caller : Nat)
    (ts : Nat) (success : Bool) : CState :=
  let s1 := { s with opCount := s.opCount + 1 }
  let s2 := if success then s1 else { s1 with errCount := s1.errCount + 1 }
  { s2 with events := s2.events ++ [GEvent.opMetric operation caller ts success] }

/-- `monitoring::emit_performance`: increments the per-name call counter
(`perf_cnt`) and per-name cumulative duration (`perf_time`) and publishes
a `PerformanceMetric` event.  Note: the source never writes the
`perf_last` key. -/
def emit_performance (s : CState) (function : String) (duration ts : Nat) : CState :=
  let count := getCtr s.perfCnt function
  let total := getCtr s.perfTime function
  let s1 := { s with
    perfCnt := setCtr s.perfCnt function (count + 1)
    perfTime := setCtr s.perfTime function (total + duration) }
  { s1 with events := s1.events ++ [GEvent.perfMetric function duration ts] }

/-- `monitoring::HealthStatus`. -/
structure HealthStatus where
  is_healthy : Bool
  last_operation : Nat
  total_operations : Nat
  contract_version : String
deriving DecidableEq, Repr

/-- `monitoring::health_check`: always healthy, current timestamp, the
operation counter, and the constant version string. -/
def health_check (s : CState) (ts : Nat) : HealthStatus :=
  { is_healthy := true
    last_operation := ts
    total_operations := s.opCount
    contract_version := "1.0.0" }

/-- `monitoring::Analytics`. -/
structure Analytics where
  operation_count : Nat
  unique_users : Nat
  error_count : Nat
  error_rate : Nat
deriving DecidableEq, Repr

/-- `monitoring::get_analytics`: the error rate in basis points is
`((errors as u128 * 10000) / ops as u128) as u32` when `ops > 0`, else 0;
the `u128` product of a `u64` by 10000 cannot overflow, and the final
`as u32` cast truncates, kept as `% 2^32`. -/
def get_analytics (s : CState) : Analytics :=
  let ops := s.opCount
  let users := s.usrCount
  let errors := s.errCount
  let error_rate := if ops > 0 then (errors * 10000 / ops) % 2 ^ 32 else 0
  { operation_count := ops
    unique_users := users
    error_count := errors
    error_rate := error_rate }

/-- `monitoring::PerformanceStats`. -/
structure PerformanceStats where
  function_name : String
  call_count : Nat
  total_time : Nat
  avg_time : Nat
  last_called : Nat
deriving DecidableEq, Repr

/-- `monitoring::get_performance_stats`: reads the `perf_cnt`,
`perf_time` and `perf_last` entries for the name (0 when absent) and
derives the average. -/
def get_performance_stats (s : CState) (function_name : String) : PerformanceStats :=
  let count := getCtr s.perfCnt function_name
  let total := getCtr s.perfTime function_name
  let last := getCtr s.perfLast function_name
  let avg := if count > 0 then total / count else 0
  { function_name := function_name
    call_count := count
    total_time := total
    avg_time := avg
    last_called := last }

-- ==================== MULTISIG MODULE (spec-modelled) ====================

/-- Modelled from the spec: the repository declares `mod multisig` and
calls `MultiSig::init`, but `multisig.rs` is not under src/.  Per §3/§4.1
the initializer stores the immutable `Multisig{signers, threshold}`
authorization configuration under its own configuration key (§6 lists the
admin principal and the authorization-config blob as distinct keys, so
this does not touch `DataKey::Admin`); per §9 the bound
`1 ≤ threshold ≤ |signers|` is NOT validated. -/
def MultiSig.init (s : CState) (signers : List Nat) (threshold : Nat) : CState :=
  { s with msConfig := some { signers := signers, threshold := threshold } }

/-- Modelled from the spec: `MultiSig::propose` (multisig.rs is not under
src/).  Per §4.2 it allocates the next monotonically increasing proposal
id and stores `{proposer, approvals = {}, executed = false}`; per §3's
invariant all governance operations are rejected before an
authorization configuration exists. -/
def MultiSig.propose (s : CState) (proposer : Nat) : Except GErr (Nat × CState) :=
  match s.msConfig with
  | none => .error .notFound
  | some _ =>
    let id := s.nextProposalId
    .ok (id, { s with
      nextProposalId := id + 1
      proposals := setProposal s.proposals id
        { proposer := proposer, approvals := [], executed := false } })

/-- Modelled from the spec: `MultiSig::approve` (multisig.rs is not under
src/).  Per §4.2 it requires the signer to be a cryptographically
authorized caller (`require_auth`) and a member of the configured signer
set, requires the proposal to exist and not be executed, and adds the
signer to `approvals` with set semantics — re-approval is a no-op, not an
error. -/
def MultiSig.approve (s : CState) (proposal_id caller signer : Nat) :
    Except GErr CState :=
  if caller = signer then
    match s.msConfig with
    | none => .error .notFound
    | some cfg =>
      if signer ∈ cfg.signers then
        match lookupProposal s.proposals proposal_id with
        | none => .error .proposalNotFound
        | some p =>
          if p.executed then .error .alreadyExecuted
          else
            let p' := if signer ∈ p.approvals then p
                      else { p with approvals := p.approvals ++ [signer] }
            .ok { s with proposals := setProposal s.proposals proposal_id p' }
      else .error .notASigner
  else .error .unauthorized

/-- Modelled from the spec: `MultiSig::can_execute` (multisig.rs is not
under src/).  Per §3's invariant, execution is possible exactly when
`|approvals| ≥ threshold` and `executed == false`; the `executed` flag
check "doubles as both states" (§4.2), so the predicate is false both
when approvals are short and when the proposal has already executed, and
false for a missing proposal or configuration. -/
def MultiSig.can_execute (s : CState) (proposal_id : Nat) : Bool :=
  match s.msConfig, lookupProposal s.proposals proposal_id with
  | some cfg, some p => decide (cfg.threshold ≤ p.approvals.length) && !p.executed
  | _, _ => false

/-- Modelled from the spec: `MultiSig::mark_executed` (multisig.rs is not
under src/).  Per §4.2 it sets the proposal's `executed` flag to true,
irreversibly. -/
def MultiSig.mark_executed (s : CState) (proposal_id : Nat) : CState :=
  match lookupProposal s.proposals proposal_id with
  | none => s
  | some p =>
    { s with proposals := setProposal s.proposals proposal_id { p with executed := true } }

-- ==================== CONTRACT ENTRY POINTS ====================

/-- `GrainlifyContract::init`: aborts with `"Already initialized"` when
the `Version` marker exists; otherwise runs `MultiSig::init` and sets
`Version` to `VERSION`. -/
def init (s : CState) (signers : List Nat) (threshold : Nat) : Except GErr CState :=
  if s.version.isSome then .error .alreadyInit
  else
    let s1 := MultiSig.init s signers threshold
    .ok { s1 with version := some VERSION }

/-- `GrainlifyContract::init_admin`: aborts with `"Already initialized"`
when the `Admin` marker exists (the abort reverts the failure-path
`track_operation` the source issues just before it); otherwise stores the
admin, sets `Version` to `VERSION`, and records success telemetry. -/
def init_admin (s : CState) (admin : Nat) (ts : Nat) : Except GErr CState :=
  if s.admin.isSome then .error .alreadyInit
  else
    let s1 := { s with admin := some admin, version := some VERSION }
    let s2 := track_operation s1 "init" admin ts true
    .ok (emit_performance s2 "init" (ts - ts) ts)

/-- `GrainlifyContract::propose_upgrade`: `MultiSig::propose`, then store
the WASM hash under `DataKey::UpgradeProposal(id)`; returns the id. -/
def propose_upgrade (s : CState) (proposer : Nat) (wasm_hash : Nat) :
    Except GErr (Nat × CState) :=
  match MultiSig.propose s proposer with
  | .error e => .error e
  | .ok (proposal_id, s1) =>
    .ok (proposal_id,
      { s1 with upgradeProposals := (proposal_id, wasm_hash) :: s1.upgradeProposals })

/-- `GrainlifyContract::approve_upgrade`: delegates to `MultiSig::approve`. -/
def approve_upgrade (s : CState) (proposal_id caller signer : Nat) :
    Except GErr CState :=
  MultiSig.approve s proposal_id caller signer

/-- `GrainlifyContract::execute_upgrade`: aborts with `"Threshold not
met"` when `MultiSig::can_execute` is false, with `"Missing upgrade
proposal"` when no WASM hash is stored; otherwise installs the WASM and
marks the proposal executed. -/
def execute_upgrade (s : CState) (proposal_id : Nat) : Except GErr CState :=
  if !MultiSig.can_execute s proposal_id then .error .thresholdNotMet
  else
    match lookupHash s.upgradeProposals proposal_id with
    | none => .error .missingProposal
    | some wasm_hash =>
      let s1 := { s with currentWasm := some wasm_hash }
      .ok (MultiSig.mark_executed s1 proposal_id)

/-- `GrainlifyContract::upgrade` (single-admin path): `unwrap`s the
stored admin (abort when missing), `require_auth`s it (abort when the
caller is not the admin), installs the WASM, then records success
telemetry. -/
def upgrade (s : CState) (caller : Nat) (new_wasm_hash : Nat) (ts : Nat) :
    Except GErr CState :=
  match s.admin with
  | none => .error .notFound
  | some admin =>
    if caller = admin then
      let s1 := { s with currentWasm := some new_wasm_hash }
      let s2 := track_operation s1 "upgrade" admin ts true
      .ok (emit_performance s2 "upgrade" (ts - ts) ts)
    else .error .unauthorized

/-- `GrainlifyContract::get_version`: the stored version, or 0 when never
set (`unwrap_or(0)`). -/
def get_version (s : CState) : Nat :=
  s.version.getD 0

/-- `GrainlifyContract::set_version`: `unwrap`s the stored admin (abort
when missing), `require_auth`s it, then overwrites `Version`
unconditionally and records success telemetry. -/
def set_version (s : CState) (caller : Nat) (new_version : Nat) (ts : Nat) :
    Except GErr CState :=
  match s.admin with
  | none => .error .notFound
  | some admin =>
    if caller = admin then
      let s1 := { s with version := some new_version }
      let s2 := track_operation s1 "set_ver" admin ts true
      .ok (emit_performance s2 "set_ver" (ts - ts) ts)
    else .error .unauthorized

/-- States reachable from the fresh deployment through the contract's
state-mutating public entry points; an aborted call reverts entirely and
produces no new state. -/
inductive Reachable : CState → Prop where
  | base : Reachable initState
  | step_init {s s' : CState} {sg : List Nat} {th : Nat} :
      Reachable s → init s sg th = .ok s' → Reachable s'
  | step_init_admin {s s' : CState} {a ts : Nat} :
      Reachable s → init_admin s a ts = .ok s' → Reachable s'
  | step_propose {s s' : CState} {p w pid : Nat} :
      Reachable s → propose_upgrade s p w = .ok (pid, s') → Reachable s'
  | step_approve {s s' : CState} {pid c sg : Nat} :
      Reachable s → approve_upgrade s pid c sg = .ok s' → Reachable s'
  | step_execute {s s' : CState} {pid : Nat} :
      Reachable s → execute_upgrade s pid = .ok s' → Reachable s'
  | step_upgrade {s s' : CState} {c w ts : Nat} :
      Reachable s → upgrade s c w ts = .ok s' → Reachable s'
  | step_set_version {s s' : CState} {c v ts : Nat} :
      Reachable s → set_version s c v ts = .ok s' → Reachable s'

/-- The approvals list of a proposal (empty when the proposal does not
exist). -/
def approvalsList (s : CState) (pid : Nat) : List Nat :=
  match lookupProposal s.proposals pid with
  | some p => p.approvals
  | none => []

/-- The size of a proposal's approvals set. -/
def approvalsCount (s : CState) (pid : Nat) : Nat :=
  (approvalsList s pid).length

/-- One `approve_upgrade` call by a fixed authorized signer; an aborted
call reverts, leaving the state unchanged. -/
def approveStep (pid signer : Nat) (s : CState) : CState :=
  match approve_upgrade s pid signer signer with
  | .ok s' => s'
  | .error _ => s

/-- `n` repeated `approve_upgrade` calls by the same signer. -/
def approveRep (pid signer : Nat) : Nat → CState → CState
  | 0, s => s
  | n + 1, s => approveRep pid signer n (approveStep pid signer s)

/-- Scenario (spec §8): multisig `init` with signers `{1, 2}` and
threshold 1, `propose_upgrade(1, 77)`, one approval by signer 1, then a
first `execute_upgrade` on the returned proposal id. -/
def c4FirstExecute : Except GErr CState :=
  match init initState [1, 2] 1 with
  | .error e => .error e
  | .ok s =>
    match propose_upgrade s 1 77 with
    | .error e => .error e
    | .ok (pid, s2) =>
      match approve_upgrade s2 pid 1 1 with
      | .error e => .error e
      | .ok s3 => execute_upgrade s3 pid

/-- The same scenario followed by a second `execute_upgrade` on the same
proposal (id 0). -/
def c4SecondExecute : Except GErr CState :=
  match c4FirstExecute with
  | .error e => .error e
  | .ok s4 => execute_upgrade s4 0

/-- A concrete state holding an open, fully approved proposal 0 (signers
`{1, 2}`, threshold 1, one approval) whose WASM hash 77 is stored. -/
def c4ReadyState : CState :=
  { initState with
    msConfig := some { signers := [1, 2], threshold := 1 }
    version := some VERSION
    nextProposalId := 1
    proposals := [(0, { proposer := 1, approvals := [1], executed := false })]
    upgradeProposals := [(0, 77)] }

/-- A concrete state holding an open, unapproved proposal 0 under a
2-of-2 multisig configuration. -/
def c8ReadyState : CState :=
  { initState with
    msConfig := some { signers := [1, 2], threshold := 2 }
    version := some VERSION
    nextProposalId := 1
    proposals := [(0, { proposer := 1, approvals := [], executed := false })]
    upgradeProposals := [(0, 77)] }

/-- The state produced by a successful `init_admin(7)` at timestamp 0 on
the fresh deployment. -/
def adminInitResult : CState :=
  emit_performance
    (track_operation { initState with admin := some 7, version := some VERSION }
      "init" 7 0 true) "init" 0 0

end Grainlify

-- ==================== HELPER LEMMAS ====================

namespace Grainlify

theorem track_operation_admin (s : CState) (op : String) (c ts : Nat) (b : Bool) :
    (track_operation s op c ts b).admin = s.admin := by
  cases b <;> rfl

theorem track_operation_version (s : CState) (op : String) (c ts : Nat) (b : Bool) :
    (track_operation s op c ts b).version = s.version := by
  cases b <;> rfl

theorem track_operation_msConfig (s : CState) (op : String) (c ts : Nat) (b : Bool) :
    (track_operation s op c ts b).msConfig = s.msConfig := by
  cases b <;> rfl

theorem track_operation_proposals (s : CState) (op : String) (c ts : Nat) (b : Bool) :
    (track_operation s op c ts b).proposals = s.proposals := by
  cases b <;> rfl

theorem track_operation_opCount (s : CState) (op : String) (c ts : Nat) (b : Bool) :
    (track_operation s op c ts b).opCount = s.opCount + 1 := by
  cases b <;> rfl

theorem track_operation_errCount (s : CState) (op : String) (c ts : Nat) (b : Bool) :
    (track_operation s op c ts b).errCount
      = (if b then s.errCount else s.errCount + 1) := by
  cases b <;> rfl

theorem track_operation_events (s : CState) (op : String) (c ts : Nat) (b : Bool) :
    (track_operation s op c ts b).events
      = s.events ++ [GEvent.opMetric op c ts b] := by
  cases b <;> rfl

theorem track_operation_perfCnt (s : CState) (op : String) (c ts : Nat) (b : Bool) :
    (track_operation s op c ts b).perfCnt = s.perfCnt := by
  cases b <;> rfl

theorem emit_performance_admin (s : CState) (f : String) (d ts : Nat) :
    (emit_performance s f d ts).admin = s.admin := rfl

theorem emit_performance_version (s : CState) (f : String) (d ts : Nat) :
    (emit_performance s f d ts).version = s.version := rfl

theorem emit_performance_msConfig (s : CState) (f : String) (d ts : Nat) :
    (emit_performance s f d ts).msConfig = s.msConfig := rfl

theorem emit_performance_proposals (s : CState) (f : String) (d ts : Nat) :
    (emit_performance s f d ts).proposals = s.proposals := rfl

theorem emit_performance_opCount (s : CState) (f : String) (d ts : Nat) :
    (emit_performance s f d ts).opCount = s.opCount := rfl

theorem emit_performance_errCount (s : CState) (f : String) (d ts : Nat) :
    (emit_performance s f d ts).errCount = s.errCount := rfl

theorem emit_performance_events (s : CState) (f : String) (d ts : Nat) :
    (emit_performance s f d ts).events
      = s.events ++ [GEvent.perfMetric f d ts] := rfl

theorem emit_performance_perfCnt (s : CState) (f : String) (d ts : Nat) :
    (emit_performance s f d ts).perfCnt
      = setCtr s.perfCnt f (getCtr s.perfCnt f + 1) := rfl

theorem getCtr_setCtr_same (l : List (String × Nat)) (k : String) (v : Nat) :
    getCtr (setCtr l k v) k = v := by
  simp [getCtr, setCtr]

theorem lookupProposal_setProposal_same (l : List (Nat × Proposal)) (k : Nat)
    (v : Proposal) : lookupProposal (setProposal l k v) k = some v := by
  simp [lookupProposal, setProposal]

/-- Inversion of a successful `init`: the `Version` marker was absent and
the new state is `MultiSig.init` plus the version write. -/
theorem init_ok_inv {s s' : CState} {sg : List Nat} {th : Nat}
    (h : init s sg th = .ok s') :
    s.version = none ∧ s' = { MultiSig.init s sg th with version := some VERSION } := by
  unfold init at h
  by_cases hv : s.version.isSome
  · simp [hv] at h
  · simp [hv] at h
    exact ⟨Option.not_isSome_iff_eq_none.mp hv, h.symm⟩

/-- Inversion of a successful `init_admin`: the `Admin` marker was absent
and the new state is the two storage writes followed by the success
telemetry. -/
theorem init_admin_ok_inv {s s' : CState} {a ts : Nat}
    (h : init_admin s a ts = .ok s') :
    s.admin = none
    ∧ s' = emit_performance
        (track_operation { s with admin := some a, version := some VERSION }
          "init" a ts true) "init" (ts - ts) ts := by
  unfold init_admin at h
  by_cases ha : s.admin.isSome
  · simp [ha] at h
  · simp [ha] at h
    exact ⟨Option.not_isSome_iff_eq_none.mp ha, by simpa using h.symm⟩

theorem init_admin_ok_fields {s s' : CState} {a ts : Nat}
    (h : init_admin s a ts = .ok s') :
    s'.admin = some a ∧ s'.version = some 1
    ∧ s'.errCount = s.errCount ∧ s'.opCount = s.opCount + 1 := by
  obtain ⟨-, rfl⟩ := init_admin_ok_inv h
  refine ⟨?_, ?_, ?_, ?_⟩ <;>
    simp [emit_performance_admin, emit_performance_version, emit_performance_errCount,
      emit_performance_opCount, track_operation_admin, track_operation_version,
      track_operation_errCount, track_operation_opCount, VERSION]

theorem init_ok_fields {s s' : CState} {sg : List Nat} {th : Nat}
    (h : init s sg th = .ok s') :
    s'.version = some 1 ∧ s'.admin = s.admin
    ∧ s'.errCount = s.errCount ∧ s'.opCount = s.opCount := by
  obtain ⟨-, rfl⟩ := init_ok_inv h
  exact ⟨rfl, rfl, rfl, rfl⟩

/-- Inversion of a successful `propose_upgrade`. -/
theorem propose_ok_inv {s s' : CState} {p w pid : Nat}
    (h : propose_upgrade s p w = .ok (pid, s')) :
    ∃ cfg, s.msConfig = some cfg ∧ pid = s.nextProposalId
    ∧ s' = { s with
        nextProposalId := s.nextProposalId + 1,
        proposals := setProposal s.proposals s.nextProposalId
          { proposer := p, approvals := [], executed := false },
        upgradeProposals := (s.nextProposalId, w) :: s.upgradeProposals } := by
  unfold propose_upgrade MultiSig.propose at h
  cases hc : s.msConfig with
  | none => simp [hc] at h
  | some cfg =>
    simp [hc] at h
    exact ⟨cfg, rfl, h.1.symm, h.2.symm⟩

/-- Inversion of a successful `MultiSig.approve`. -/
theorem approve_ok_inv {s s' : CState} {pid c sg : Nat}
    (h : MultiSig.approve s pid c sg = .ok s') :
    c = sg ∧ ∃ cfg p, s.msConfig = some cfg ∧ sg ∈ cfg.signers
    ∧ lookupProposal s.proposals pid = some p ∧ p.executed = false
    ∧ s' = { s with proposals := (setProposal s.proposals pid
          (if sg ∈ p.approvals then p
           else { p with approvals := p.approvals ++ [sg] })) } := by
  unfold MultiSig.approve at h
  by_cases hcs : c = sg
  · simp [hcs] at h
    cases hc : s.msConfig with
    | none => simp [hc] at h
    | some cfg =>
      simp [hc] at h
      by_cases hsig : sg ∈ cfg.signers
      · simp [hsig] at h
        cases hp : lookupProposal s.proposals pid with
        | none => simp [hp] at h
        | some p =>
          simp [hp] at h
          by_cases hex : p.executed
          · simp [hex] at h
          · simp [hex] at h
            have hex' : p.executed = false := by simpa using hex
            refine ⟨hcs, cfg, p, rfl, hsig, rfl, hex', ?_⟩
            rw [hex']
            exact h.symm
      · simp [hsig] at h
  · simp [hcs] at h

/-- Inversion of a successful `execute_upgrade`. -/
theorem execute_ok_inv {s s' : CState} {pid : Nat}
    (h : execute_upgrade s pid = .ok s') :
    MultiSig.can_execute s pid = true
    ∧ ∃ w, lookupHash s.upgradeProposals pid = some w
    ∧ s' = MultiSig.mark_executed { s with currentWasm := some w } pid := by
  unfold execute_upgrade at h
  by_cases hc : MultiSig.can_execute s pid
  · simp [hc] at h
    cases hw : lookupHash s.upgradeProposals pid with
    | none => simp [hw] at h
    | some w =>
      simp [hw] at h
      exact ⟨hc, w, rfl, h.symm⟩
  · simp [hc] at h

/-- Inversion of a successful `upgrade`. -/
theorem upgrade_ok_inv {s s' : CState} {c w ts : Nat}
    (h : upgrade s c w ts = .ok s') :
    s.admin = some c
    ∧ s' = emit_performance
        (track_operation { s with currentWasm := some w } "upgrade" c ts true)
        "upgrade" (ts - ts) ts := by
  unfold upgrade at h
  cases ha : s.admin with
  | none => simp [ha] at h
  | some admin =>
    simp [ha] at h
    by_cases hc : c = admin
    · simp [hc] at h
      exact ⟨by rw [hc], by rw [hc]; simpa using h.symm⟩
    · simp [hc] at h

/-- Inversion of a successful `set_version`. -/
theorem set_version_ok_inv {s s' : CState} {c v ts : Nat}
    (h : set_version s c v ts = .ok s') :
    s.admin = some c
    ∧ s' = emit_performance
        (track_operation { s with version := some v } "set_ver" c ts true)
        "set_ver" (ts - ts) ts := by
  unfold set_version at h
  cases ha : s.admin with
  | none => simp [ha] at h
  | some admin =>
    simp [ha] at h
    by_cases hc : c = admin
    · simp [hc] at h
      exact ⟨by rw [hc], by rw [hc]; simpa using h.symm⟩
    · simp [hc] at h

theorem mark_executed_version (s : CState) (pid : Nat) :
    (MultiSig.mark_executed s pid).version = s.version := by
  unfold MultiSig.mark_executed
  cases lookupProposal s.proposals pid <;> rfl

theorem mark_executed_msConfig (s : CState) (pid : Nat) :
    (MultiSig.mark_executed s pid).msConfig = s.msConfig := by
  unfold MultiSig.mark_executed
  cases lookupProposal s.proposals pid <;> rfl

theorem mark_executed_errCount (s : CState) (pid : Nat) :
    (MultiSig.mark_executed s pid).errCount = s.errCount := by
  unfold MultiSig.mark_executed
  cases lookupProposal s.proposals pid <;> rfl

theorem mark_executed_opCount (s : CState) (pid : Nat) :
    (MultiSig.mark_executed s pid).opCount = s.opCount := by
  unfold MultiSig.mark_executed
  cases lookupProposal s.proposals pid <;> rfl

/-- A reachable state whose `Version` marker is absent is the fresh
deployment: every state-mutating operation either writes the marker or
requires configuration the fresh deployment does not have. -/
theorem reachable_version_none {s : CState} (hr : Reachable s) :
    s.version = none → s = initState := by
  induction hr with
  | base => intro _; rfl
  | step_init hrs h ih =>
    intro hv
    obtain ⟨h1, -, -, -⟩ := init_ok_fields h
    rw [hv] at h1
    cases h1
  | step_init_admin hrs h ih =>
    intro hv
    obtain ⟨-, h1, -, -⟩ := init_admin_ok_fields h
    rw [hv] at h1
    cases h1
  | step_propose hrs h ih =>
    rename_i s0 s1 p0 w0 pid0
    intro hv
    obtain ⟨cfg, hcfg, -, rfl⟩ := propose_ok_inv h
    have hsv : s0.version = none := hv
    rw [ih hsv] at hcfg
    simp [initState] at hcfg
  | step_approve hrs h ih =>
    rename_i s0 s1 pid0 c0 sg0
    intro hv
    obtain ⟨-, cfg, p, hcfg, -, -, -, rfl⟩ := approve_ok_inv h
    have hsv : s0.version = none := hv
    rw [ih hsv] at hcfg
    simp [initState] at hcfg
  | step_execute hrs h ih =>
    rename_i s0 s1 pid0
    intro hv
    obtain ⟨hce, w, -, rfl⟩ := execute_ok_inv h
    have hsv : s0.version = none := by
      rw [mark_executed_version] at hv
      exact hv
    rw [ih hsv] at hce
    simp [MultiSig.can_execute, initState] at hce
  | step_upgrade hrs h ih =>
    rename_i s0 s1 c0 w0 ts0
    intro hv
    obtain ⟨ha, rfl⟩ := upgrade_ok_inv h
    have hsv : s0.version = none := by
      rw [emit_performance_version, track_operation_version] at hv
      exact hv
    rw [ih hsv] at ha
    simp [initState] at ha
  | step_set_version hrs h ih =>
    intro hv
    obtain ⟨-, rfl⟩ := set_version_ok_inv h
    rw [emit_performance_version, track_operation_version] at hv
    simp at hv

end Grainlify

-- ==================== CLAIM THEOREMS ====================

namespace Grainlify

/-- C10: `health_check()` returns `is_healthy = true` and the constant
version string "1.0.0" in every state, regardless of initialization
status, recorded errors, or the stored version number; its output varies
only in the current timestamp and the total operation count. -/
theorem grainlify_C10_health_check_constant :
    (∀ (s : CState) (ts : Nat),
      (health_check s ts).is_healthy = true
      ∧ (health_check s ts).contract_version = "1.0.0")
    ∧ (∀ (s1 s2 : CState) (ts1 ts2 : Nat),
        s1.opCount = s2.opCount → ts1 = ts2 →
        health_check s1 ts1 = health_check s2 ts2) := by
  constructor
  · intro s ts
    exact ⟨rfl, rfl⟩
  · intro s1 s2 ts1 ts2 hop hts
    simp [health_check, hop, hts]

/-- C10 witness: a state with a stored version, an admin and recorded
errors reports exactly the same health as the fresh deployment at the
same timestamp and operation count. -/
theorem grainlify_C10_health_check_constant_witness :
    health_check initState 5
      = health_check
          { initState with version := some 7, admin := some 3, errCount := 2 } 5 :=
  grainlify_C10_health_check_constant.2 initState
    { initState with version := some 7, admin := some 3, errCount := 2 } 5 5 rfl rfl

/-- C3 (code bug): after a single `emit_performance("f", 5)` at
timestamp 42, `get_performance_stats("f")` returns `last_called = 0` and
not the timestamp 42 of the most recent call — the source reads the
`perf_last` key but no code path ever writes it — even though the call
counter does advance to 1. -/
theorem grainlify_C3_last_called_never_recorded :
    (get_performance_stats (emit_performance initState "f" 5 42) "f").last_called = 0
    ∧ (get_performance_stats (emit_performance initState "f" 5 42) "f").call_count = 1
    ∧ (42 : Nat) ≠ 0 :=
  ⟨rfl, rfl, by decide⟩

/-- C5: `get_version()` is 0 on the fresh deployment, 0 in every
reachable state whose `Version` marker is absent (any such state is
necessarily the fresh deployment: nothing else is reachable before an
initializer succeeds), and 1 immediately after either `init` or
`init_admin` succeeds. -/
theorem grainlify_C5_version_zero_then_one :
    get_version initState = 0
    ∧ (∀ s : CState, Reachable s → s.version = none →
        s = initState ∧ get_version s = 0)
    ∧ (∀ (s : CState) (sg : List Nat) (th : Nat) (s' : CState),
        init s sg th = .ok s' → get_version s' = 1)
    ∧ (∀ (s s' : CState) (a ts : Nat),
        init_admin s a ts = .ok s' → get_version s' = 1) := by
  refine ⟨rfl, ?_, ?_, ?_⟩
  · intro s hr hv
    exact ⟨reachable_version_none hr hv, by simp [get_version, hv]⟩
  · intro s sg th s' h
    obtain ⟨hver, -, -, -⟩ := init_ok_fields h
    simp [get_version, hver]
  · intro s s' a ts h
    obtain ⟨-, hver, -, -⟩ := init_admin_ok_fields h
    simp [get_version, hver]

/-- C5 witness: on the fresh deployment the version reads 0; immediately
after a successful `init([1], 1)` it reads 1, and immediately after a
successful `init_admin(7)` it reads 1. -/
theorem grainlify_C5_version_zero_then_one_witness :
    get_version initState = 0
    ∧ get_version { initState with
        msConfig := some { signers := [1], threshold := 1 },
        version := some VERSION } = 1
    ∧ get_version adminInitResult = 1 :=
  ⟨(grainlify_C5_version_zero_then_one.2.1 initState Reachable.base rfl).2,
   grainlify_C5_version_zero_then_one.2.2.1 initState [1] 1 _ rfl,
   grainlify_C5_version_zero_then_one.2.2.2 initState adminInitResult 7 0 rfl⟩

/-- C6: with error counter `e ≤ k` (the operation counter) and `k` in
`u64` range, `get_analytics().error_rate` equals `floor(e * 10000 / k)`
basis points (0 when `k = 0`), and the `u128` intermediate product
`e * 10000` cannot overflow. -/
theorem grainlify_C6_error_rate (s : CState)
    (hle : s.errCount ≤ s.opCount) (hlt : s.opCount < 2 ^ 64) :
    (get_analytics s).error_rate = s.errCount * 10000 / s.opCount
    ∧ (s.opCount = 0 → (get_analytics s).error_rate = 0)
    ∧ s.errCount * 10000 < 2 ^ 128 := by
  refine ⟨?_, ?_, ?_⟩
  · by_cases h0 : s.opCount = 0
    · have he : s.errCount = 0 := Nat.le_zero.mp (h0 ▸ hle)
      simp [get_analytics, h0, he]
    · have hpos : 0 < s.opCount := Nat.pos_of_ne_zero h0
      have hb : s.errCount * 10000 / s.opCount ≤ 10000 := by
        calc s.errCount * 10000 / s.opCount
            ≤ s.opCount * 10000 / s.opCount :=
              Nat.div_le_div_right (Nat.mul_le_mul_right _ hle)
          _ = 10000 := Nat.mul_div_cancel_left _ hpos
      have hsmall : s.errCount * 10000 / s.opCount < 2 ^ 32 :=
        lt_of_le_of_lt hb (by norm_num)
      have hrate : (get_analytics s).error_rate
          = (s.errCount * 10000 / s.opCount) % 2 ^ 32 := by
        simp [get_analytics, hpos]
      rw [hrate, Nat.mod_eq_of_lt hsmall]
  · intro h0
    simp [get_analytics, h0]
  · calc s.errCount * 10000
        ≤ s.opCount * 10000 := Nat.mul_le_mul_right _ hle
      _ < 2 ^ 64 * 10000 := (Nat.mul_lt_mul_right (by norm_num)).mpr hlt
      _ < 2 ^ 128 := by norm_num

/-- C6 witness: with 3 tracked operations and 1 failure the error rate
reads `floor(1 * 10000 / 3) = 3333` basis points. -/
theorem grainlify_C6_error_rate_witness :
    (1 : Nat) ≤ 3 ∧ (3 : Nat) < 2 ^ 64
    ∧ (get_analytics { initState with opCount := 3, errCount := 1 }).error_rate = 3333 := by
  refine ⟨by norm_num, by norm_num, ?_⟩
  have h := (grainlify_C6_error_rate
    { initState with opCount := 3, errCount := 1 } (by decide) (by norm_num)).1
  simpa using h

/-- C7: a successful `set_version(v)` by the authorized admin overwrites
the stored version unconditionally — a subsequent `get_version()` returns
`v` whatever the previous version was (smaller, equal or greater), and
whenever the stored admin authorizes the call it succeeds with no
monotonicity check. -/
theorem grainlify_C7_set_version_unconditional :
    ∀ (s : CState) (caller v ts : Nat),
      (∀ s', set_version s caller v ts = .ok s' → get_version s' = v)
      ∧ (s.admin = some caller → (set_version s caller v ts).isOk = true) := by
  intro s caller v ts
  constructor
  · intro s' h
    obtain ⟨-, rfl⟩ := set_version_ok_inv h
    simp [get_version, emit_performance_version, track_operation_version]
  · intro ha
    simp [set_version, ha, Except.isOk, Except.toBool]

/-- C7 witness: starting from stored version 5, the admin (address 4)
moves the version backward to 2 and `get_version` then reads 2. -/
theorem grainlify_C7_set_version_unconditional_witness :
    get_version (emit_performance
      (track_operation { initState with admin := some 4, version := some 2 }
        "set_ver" 4 1 true) "set_ver" 0 1) = 2
    ∧ (set_version { initState with admin := some 4, version := some 5 } 4 2 1).isOk
        = true :=
  ⟨(grainlify_C7_set_version_unconditional
      { initState with admin := some 4, version := some 5 } 4 2 1).1 _ rfl,
   (grainlify_C7_set_version_unconditional
      { initState with admin := some 4, version := some 5 } 4 2 1).2 rfl⟩

end Grainlify

namespace Grainlify

/-- C1 counterexample: the two initializers are guarded by different
storage markers (`init` checks `DataKey::Version`, `init_admin` checks
`DataKey::Admin`).  After a successful multisig `init` — which writes the
`Version` marker but not the `Admin` marker — a subsequent `init_admin`
succeeds instead of failing with AlreadyInitialized. -/
theorem grainlify_C1_counterexample :
    init initState [1, 2, 3] 2
      = .ok { initState with
          msConfig := some { signers := [1, 2, 3], threshold := 2 },
          version := some VERSION }
    ∧ (init_admin { initState with
          msConfig := some { signers := [1, 2, 3], threshold := 2 },
          version := some VERSION } 9 0).isOk = true :=
  ⟨rfl, rfl⟩

/-- C1 amended: `init` is guarded by the `Version` marker and
`init_admin` by the `Admin` marker.  After a successful `init_admin`
(which writes both markers) every subsequent call to either initializer
fails with AlreadyInitialized; after a successful `init` (which writes
only the `Version` marker) every subsequent `init` fails with
AlreadyInitialized, but a subsequent `init_admin` can still succeed. -/
theorem grainlify_C1_init_guards :
    (∀ (s s' : CState) (a ts : Nat), init_admin s a ts = .ok s' →
      (∀ (sg : List Nat) (th : Nat), init s' sg th = .error GErr.alreadyInit)
      ∧ (∀ (a2 ts2 : Nat), init_admin s' a2 ts2 = .error GErr.alreadyInit))
    ∧ (∀ (s : CState) (sg : List Nat) (th : Nat) (s' : CState),
        init s sg th = .ok s' →
        ∀ (sg2 : List Nat) (th2 : Nat), init s' sg2 th2 = .error GErr.alreadyInit) := by
  constructor
  · intro s s' a ts h
    obtain ⟨hadm, hver, -, -⟩ := init_admin_ok_fields h
    constructor
    · intro sg th
      simp [init, hver]
    · intro a2 ts2
      simp [init_admin, hadm]
  · intro s sg th s' h
    obtain ⟨hver, -, -, -⟩ := init_ok_fields h
    intro sg2 th2
    simp [init, hver]

/-- C1 witness: after `init_admin(7)` on the fresh deployment, both a
multisig `init` and a second `init_admin` fail with AlreadyInitialized;
after a multisig `init` on the fresh deployment, a second `init` fails
with AlreadyInitialized. -/
theorem grainlify_C1_init_guards_witness :
    init adminInitResult [5] 1 = .error GErr.alreadyInit
    ∧ init_admin adminInitResult 8 3 = .error GErr.alreadyInit
    ∧ init { initState with
        msConfig := some { signers := [5], threshold := 1 },
        version := some VERSION } [6] 1 = .error GErr.alreadyInit :=
  ⟨(grainlify_C1_init_guards.1 initState adminInitResult 7 0 rfl).1 [5] 1,
   (grainlify_C1_init_guards.1 initState adminInitResult 7 0 rfl).2 8 3,
   grainlify_C1_init_guards.2 initState [5] 1 _ rfl [6] 1⟩

/-- C2: every successful `upgrade` records telemetry — the operation
counter advances, the per-name `upgrade` performance counter advances,
and the published events carry the operation name, the success flag and a
duration sample — while every failing `upgrade` is a fatal authorization
abort (missing admin or failed `require_auth`) that happens before any
telemetry and reverts the call. -/
theorem grainlify_C2_upgrade_telemetry :
    ∀ (s : CState) (caller w ts : Nat),
      (∀ s', upgrade s caller w ts = .ok s' →
        s'.opCount = s.opCount + 1
        ∧ getCtr s'.perfCnt "upgrade" = getCtr s.perfCnt "upgrade" + 1
        ∧ s'.events = s.events
            ++ [GEvent.opMetric "upgrade" caller ts true,
                GEvent.perfMetric "upgrade" (ts - ts) ts])
      ∧ (∀ e, upgrade s caller w ts = .error e →
          e = GErr.notFound ∨ e = GErr.unauthorized) := by
  intro s caller w ts
  constructor
  · intro s' h
    obtain ⟨ha, rfl⟩ := upgrade_ok_inv h
    refine ⟨?_, ?_, ?_⟩
    · rw [emit_performance_opCount, track_operation_opCount]
    · rw [emit_performance_perfCnt, track_operation_perfCnt, getCtr_setCtr_same]
    · rw [emit_performance_events, track_operation_events]
      simp
  · intro e h
    unfold upgrade at h
    cases ha : s.admin with
    | none =>
      rw [ha] at h
      left
      exact (Except.error.injEq _ _).mp h.symm
    | some a =>
      rw [ha] at h
      by_cases hc : caller = a
      · simp [hc] at h
      · simp [hc] at h
        right
        exact h.symm

/-- C2 witness: a successful `upgrade` by admin 7 advances the operation
counter, and an `upgrade` by non-admin 8 aborts with the authorization
failure. -/
theorem grainlify_C2_upgrade_telemetry_witness :
    (emit_performance
      (track_operation { initState with admin := some 7, currentWasm := some 99 }
        "upgrade" 7 5 true) "upgrade" 0 5).opCount
      = ({ initState with admin := some 7 } : CState).opCount + 1
    ∧ (GErr.unauthorized = GErr.notFound ∨ GErr.unauthorized = GErr.unauthorized) :=
  ⟨((grainlify_C2_upgrade_telemetry { initState with admin := some 7 } 7 99 5).1 _
      rfl).1,
   (grainlify_C2_upgrade_telemetry { initState with admin := some 7 } 8 99 5).2
      GErr.unauthorized rfl⟩

end Grainlify

namespace Grainlify

/-- A successful `MultiSig.can_execute` check means: a configuration and
the proposal exist, the approvals meet the threshold, and the proposal is
not yet executed. -/
theorem can_execute_true_inv {s : CState} {pid : Nat}
    (h : MultiSig.can_execute s pid = true) :
    ∃ cfg p, s.msConfig = some cfg ∧ lookupProposal s.proposals pid = some p
    ∧ cfg.threshold ≤ p.approvals.length ∧ p.executed = false := by
  unfold MultiSig.can_execute at h
  cases hcfg : s.msConfig with
  | none => rw [hcfg] at h; simp at h
  | some cfg =>
    cases hp : lookupProposal s.proposals pid with
    | none => rw [hcfg, hp] at h; simp at h
    | some p =>
      rw [hcfg, hp] at h
      simp at h
      exact ⟨cfg, p, rfl, rfl, h.1, h.2⟩

/-- `MultiSig.can_execute` evaluated when the configuration and the
proposal are known. -/
theorem can_execute_some (s : CState) (pid : Nat) (cfg : MsConfig) (p : Proposal)
    (hcfg : s.msConfig = some cfg) (hp : lookupProposal s.proposals pid = some p) :
    MultiSig.can_execute s pid
      = (decide (cfg.threshold ≤ p.approvals.length) && !p.executed) := by
  unfold MultiSig.can_execute
  rw [hcfg, hp]

/-- C4 counterexample: in the scenario init {1,2} with threshold 1,
propose, approve, execute — the first `execute_upgrade` succeeds, but the
second one fails with the ThresholdNotMet abort (the only error
`execute_upgrade` raises for an inexecutable proposal), which is not a
distinct AlreadyExecuted error. -/
theorem grainlify_C4_counterexample :
    c4FirstExecute.isOk = true
    ∧ c4SecondExecute = .error GErr.thresholdNotMet
    ∧ GErr.thresholdNotMet ≠ GErr.alreadyExecuted :=
  ⟨rfl, rfl, by decide⟩

/-- C4 amended: a proposal whose approvals meet the threshold and whose
WASM hash is stored executes successfully on the first
`execute_upgrade`, which permanently marks it executed; a second
`execute_upgrade` on the same proposal fails, but with the same
ThresholdNotMet abort used for an under-approved proposal (the
`can_execute` predicate conflates the two conditions), not with a
distinct AlreadyExecuted error. -/
theorem grainlify_C4_execute_exactly_once :
    (∀ (s : CState) (pid : Nat),
      MultiSig.can_execute s pid = true →
      (lookupHash s.upgradeProposals pid).isSome = true →
      (execute_upgrade s pid).isOk = true)
    ∧ (∀ (s : CState) (pid : Nat) (s' : CState),
        execute_upgrade s pid = .ok s' →
        (∃ p, lookupProposal s'.proposals pid = some p ∧ p.executed = true)
        ∧ execute_upgrade s' pid = .error GErr.thresholdNotMet) := by
  constructor
  · intro s pid hc hw
    unfold execute_upgrade
    rw [hc]
    cases hwv : lookupHash s.upgradeProposals pid with
    | none => rw [hwv] at hw; simp at hw
    | some w => simp [hwv, Except.isOk, Except.toBool]
  · intro s pid s' h
    obtain ⟨hc, w, hw, rfl⟩ := execute_ok_inv h
    obtain ⟨cfg, p, hcfg, hp, hth, hex⟩ := can_execute_true_inv hc
    have hps : lookupProposal ({ s with currentWasm := some w } : CState).proposals pid
        = some p := hp
    have hlook : lookupProposal
        (MultiSig.mark_executed { s with currentWasm := some w } pid).proposals pid
        = some { p with executed := true } := by
      unfold MultiSig.mark_executed
      rw [hps]
      exact lookupProposal_setProposal_same _ _ _
    refine ⟨⟨{ p with executed := true }, hlook, rfl⟩, ?_⟩
    have hms : (MultiSig.mark_executed { s with currentWasm := some w } pid).msConfig
        = some cfg := by
      rw [mark_executed_msConfig]
      exact hcfg
    have hcant : MultiSig.can_execute
        (MultiSig.mark_executed { s with currentWasm := some w } pid) pid = false := by
      rw [can_execute_some _ pid cfg { p with executed := true } hms hlook]
      simp
    unfold execute_upgrade
    rw [hcant]
    rfl

/-- C4 witness: on a concrete state with a 1-of-2 multisig, a fully
approved open proposal 0 and its stored hash, `execute_upgrade` succeeds,
and on the concrete post-execution state it fails with ThresholdNotMet. -/
theorem grainlify_C4_execute_exactly_once_witness :
    (execute_upgrade c4ReadyState 0).isOk = true
    ∧ execute_upgrade
        (MultiSig.mark_executed { c4ReadyState with currentWasm := some 77 } 0) 0
      = .error GErr.thresholdNotMet :=
  ⟨grainlify_C4_execute_exactly_once.1 c4ReadyState 0 rfl rfl,
   (grainlify_C4_execute_exactly_once.2 c4ReadyState 0 _ rfl).2⟩

end Grainlify

namespace Grainlify

/-- `MultiSig.approve` evaluated when its preconditions are known to
hold: the authorized signer is a configured signer, the proposal exists
and is not executed. -/
theorem approve_eval (s : CState) (pid c sg : Nat) (cfg : MsConfig) (p : Proposal)
    (hcfg : s.msConfig = some cfg) (hp : lookupProposal s.proposals pid = some p)
    (hcs : c = sg) (hsig : sg ∈ cfg.signers) (hex : p.executed = false) :
    MultiSig.approve s pid c sg
      = .ok { s with proposals := (setProposal s.proposals pid
          (if sg ∈ p.approvals then p
           else { p with approvals := p.approvals ++ [sg] })) } := by
  subst hcs
  unfold MultiSig.approve
  rw [if_pos rfl, hcfg, hp]
  simp [hsig, hex]

/-- One `approveStep` either leaves the proposal's approvals unchanged or
appends the signer when it was not yet present. -/
theorem approveStep_approvals (pid sg : Nat) (s : CState) :
    approvalsList (approveStep pid sg s) pid = approvalsList s pid
    ∨ (sg ∉ approvalsList s pid
       ∧ approvalsList (approveStep pid sg s) pid = approvalsList s pid ++ [sg]) := by
  unfold approveStep
  cases h : approve_upgrade s pid sg sg with
  | error e => left; rfl
  | ok s' =>
    obtain ⟨-, cfg, p, hcfg, hsig, hp, hex, rfl⟩ :=
      approve_ok_inv (show MultiSig.approve s pid sg sg = .ok s' from h)
    by_cases hm : sg ∈ p.approvals
    · left
      show approvalsList _ pid = approvalsList s pid
      unfold approvalsList
      rw [lookupProposal_setProposal_same, hp]
      simp [hm]
    · right
      constructor
      · show sg ∉ approvalsList s pid
        unfold approvalsList
        rw [hp]
        exact hm
      · show approvalsList _ pid = approvalsList s pid ++ [sg]
        unfold approvalsList
        rw [lookupProposal_setProposal_same, hp]
        simp [hm]

/-- Any number of repeated `approve_upgrade` calls by the same signer
either leaves the proposal's approvals unchanged or appends the signer
exactly once. -/
theorem approveRep_approvals (pid sg : Nat) :
    ∀ (n : Nat) (s : CState),
      approvalsList (approveRep pid sg n s) pid = approvalsList s pid
      ∨ (sg ∉ approvalsList s pid
         ∧ approvalsList (approveRep pid sg n s) pid = approvalsList s pid ++ [sg]) := by
  intro n
  induction n with
  | zero => intro s; left; rfl
  | succ n ih =>
    intro s
    rcases approveStep_approvals pid sg s with h1 | ⟨hnm1, h1⟩
    · rcases ih (approveStep pid sg s) with h2 | ⟨hnm2, h2⟩
      · left
        simp only [approveRep]
        rw [h2, h1]
      · right
        refine ⟨?_, ?_⟩
        · rw [h1] at hnm2
          exact hnm2
        · simp only [approveRep]
          rw [h2, h1]
    · rcases ih (approveStep pid sg s) with h2 | ⟨hnm2, h2⟩
      · right
        refine ⟨hnm1, ?_⟩
        simp only [approveRep]
        rw [h2, h1]
      · exfalso
        rw [h1] at hnm2
        exact hnm2 (by simp)

/-- C8: approval is idempotent — any sequence of `approve_upgrade` calls
by the same signer grows the proposal's approvals set by at most one, and
re-approval by a signer already in the set succeeds as a no-op (not an
error) on the approvals. -/
theorem grainlify_C8_approve_idempotent :
    (∀ (pid sg n : Nat) (s : CState),
      approvalsCount (approveRep pid sg n s) pid ≤ approvalsCount s pid + 1)
    ∧ (∀ (s : CState) (pid c sg : Nat) (s' : CState),
        approve_upgrade s pid c sg = .ok s' →
        (approve_upgrade s' pid c sg).isOk = true
        ∧ ∀ s'', approve_upgrade s' pid c sg = .ok s'' →
            approvalsList s'' pid = approvalsList s' pid) := by
  constructor
  · intro pid sg n s
    rcases approveRep_approvals pid sg n s with h | ⟨-, h⟩
    · unfold approvalsCount
      rw [h]
      exact Nat.le_succ _
    · unfold approvalsCount
      rw [h]
      simp
  · intro s pid c sg s' h
    obtain ⟨hcs, cfg, p, hcfg, hsig, hp, hex, rfl⟩ :=
      approve_ok_inv (show MultiSig.approve s pid c sg = .ok s' from h)
    have hp1 : lookupProposal
        ({ s with proposals := (setProposal s.proposals pid
          (if sg ∈ p.approvals then p
           else { p with approvals := p.approvals ++ [sg] })) } : CState).proposals pid
        = some (if sg ∈ p.approvals then p
           else { p with approvals := p.approvals ++ [sg] }) :=
      lookupProposal_setProposal_same _ _ _
    have hex1 : (if sg ∈ p.approvals then p
        else { p with approvals := p.approvals ++ [sg] }).executed = false := by
      by_cases hm : sg ∈ p.approvals <;> simp [hm, hex]
    have hmem1 : sg ∈ (if sg ∈ p.approvals then p
        else { p with approvals := p.approvals ++ [sg] }).approvals := by
      by_cases hm : sg ∈ p.approvals <;> simp [hm]
    have hcfg1 : ({ s with proposals := (setProposal s.proposals pid
          (if sg ∈ p.approvals then p
           else { p with approvals := p.approvals ++ [sg] })) } : CState).msConfig
        = some cfg := hcfg
    have h2 := approve_eval _ pid c sg cfg _ hcfg1 hp1 hcs hsig hex1
    constructor
    · show (MultiSig.approve _ pid c sg).isOk = true
      rw [h2]
      rfl
    · intro s'' h''
      have h''' : MultiSig.approve _ pid c sg = .ok s'' := h''
      rw [h2] at h'''
      have hXs := (Except.ok.injEq _ _).mp h'''
      rw [← hXs]
      simp [approvalsList, setProposal, lookupProposal, hmem1]

/-- C8 witness: on a 2-of-2 multisig with open proposal 0, a first
approval by signer 1 succeeds; a second approval by signer 1 also
succeeds and leaves the approvals of proposal 0 unchanged. -/
theorem grainlify_C8_approve_idempotent_witness :
    approvalsCount (approveRep 0 1 3 c8ReadyState) 0 ≤ approvalsCount c8ReadyState 0 + 1
    ∧ (approve_upgrade { c8ReadyState with proposals := (setProposal
          c8ReadyState.proposals 0
          { proposer := 1, approvals := [1], executed := false }) } 0 1 1).isOk = true :=
  ⟨grainlify_C8_approve_idempotent.1 0 1 3 c8ReadyState,
   ((grainlify_C8_approve_idempotent.2 c8ReadyState 0 1 1 _ rfl).1)⟩

end Grainlify

namespace Grainlify

/-- C9: in every reachable state the global error counter is at most the
global operation counter, and `track_operation` itself preserves this
bound for any success flag (it advances the operation counter on every
call and the error counter only on failure). -/
theorem grainlify_C9_errors_le_operations :
    (∀ s : CState, Reachable s → s.errCount ≤ s.opCount)
    ∧ (∀ (s : CState) (op : String) (c ts : Nat) (b : Bool),
        s.errCount ≤ s.opCount →
        (track_operation s op c ts b).errCount
          ≤ (track_operation s op c ts b).opCount) := by
  constructor
  · intro s hr
    induction hr with
    | base => exact Nat.le_refl 0
    | step_init hrs h ih =>
      obtain ⟨-, -, he, ho⟩ := init_ok_fields h
      rw [he, ho]
      exact ih
    | step_init_admin hrs h ih =>
      obtain ⟨-, -, he, ho⟩ := init_admin_ok_fields h
      rw [he, ho]
      exact Nat.le_succ_of_le ih
    | step_propose hrs h ih =>
      obtain ⟨cfg, -, -, rfl⟩ := propose_ok_inv h
      exact ih
    | step_approve hrs h ih =>
      rename_i s0 s1 pid0 c0 sg0
      obtain ⟨-, cfg, p, -, -, -, -, rfl⟩ :=
        approve_ok_inv (show MultiSig.approve s0 pid0 c0 sg0 = .ok s1 from h)
      exact ih
    | step_execute hrs h ih =>
      obtain ⟨-, w, -, rfl⟩ := execute_ok_inv h
      rw [mark_executed_errCount, mark_executed_opCount]
      exact ih
    | step_upgrade hrs h ih =>
      obtain ⟨-, rfl⟩ := upgrade_ok_inv h
      rw [emit_performance_errCount, emit_performance_opCount,
        track_operation_errCount, track_operation_opCount]
      simpa using Nat.le_succ_of_le ih
    | step_set_version hrs h ih =>
      obtain ⟨-, rfl⟩ := set_version_ok_inv h
      rw [emit_performance_errCount, emit_performance_opCount,
        track_operation_errCount, track_operation_opCount]
      simpa using Nat.le_succ_of_le ih
  · intro s op c ts b hle
    rw [track_operation_errCount, track_operation_opCount]
    cases b
    · simpa using Nat.succ_le_succ hle
    · simpa using Nat.le_succ_of_le hle

/-- C9 witness: the invariant holds at the fresh deployment, and
`track_operation` preserves it there on a failing operation. -/
theorem grainlify_C9_errors_le_operations_witness :
    initState.errCount ≤ initState.opCount
    ∧ (track_operation initState "x" 1 2 false).errCount
        ≤ (track_operation initState "x" 1 2 false).opCount :=
  ⟨grainlify_C9_errors_le_operations.1 initState Reachable.base,
   grainlify_C9_errors_le_operations.2 initState "x" 1 2 false (Nat.le_refl 0)⟩

end Grainlify
